import Mathlib

/-!
Shallow embedding of the jpegxr Rust adaptation layer (src/lib.rs):
the status translator, the pixel-format registry, the stream adapter
callbacks, and the decoder-handle lifecycle.  Foreign (C-side) calls are
modelled by their observable status codes and by event traces; constants
that live in the generated bindings (not in src/) are modelled from the
spec as distinct integer values.
-/

namespace JpegXR

instance {ε α : Type} [DecidableEq ε] [DecidableEq α] : DecidableEq (Except ε α) := fun a b =>
  match a, b with
  | .ok x, .ok y => if h : x = y then .isTrue (by rw [h]) else .isFalse (by simp [h])
  | .error x, .error y => if h : x = y then .isTrue (by rw [h]) else .isFalse (by simp [h])
  | .ok _, .error _ => .isFalse (by simp)
  | .error _, .ok _ => .isFalse (by simp)

/-! ## Status codes

Modelled from the spec: the ERR status-code constants are defined in the
generated bindings module (jpegxr_sys, produced by build-time code
generation, not under src/).  Per the spec, status codes are signed
integers, 0 is plain success, and the ~17 known failure codes are
distinct negative values. -/

def WMP_errSuccess : Int := 0

def WMP_errFail : Int := -1

def WMP_errNotYetImplemented : Int := -2

def WMP_errAbstractMethod : Int := -3

def WMP_errOutOfMemory : Int := -101

-- bindings name this constant with a capital O at the end
def WMP_errFileIo : Int := -102

def WMP_errBufferOverflow : Int := -103

def WMP_errInvalidParameter : Int := -104

def WMP_errInvalidArgument : Int := -105

def WMP_errUnsupportedFormat : Int := -106

def WMP_errIncorrectCodecVersion : Int := -107

def WMP_errIndexNotFound : Int := -108

def WMP_errOutOfSequence : Int := -109

def WMP_errNotInitialized : Int := -110

def WMP_errMustBeMultipleOf16LinesUntilLastCall : Int := -111

def WMP_errPlanarAlphaBandedEncRequiresTempFile : Int := -112

def WMP_errAlphaModeCannotBeTranscoded : Int := -113

def WMP_errIncorrectCodecSubVersion : Int := -114

/-- Error type of the library, mirroring the JXRError enum of src/lib.rs.
Payloads of the wrapped host-side errors are dropped (they are opaque to
every property considered here). -/
inductive JXRError where
  | IoError
  | NulError
  | TryFromIntError
  | InvalidData
  | UnrecognizedPixelFormat
  | UnrecognizedColorFormat
  | UnrecognizedInterpretation
  | UnrecognizedBitDepth
  | UnknownError
  | Fail
  | NotYetImplemented
  | AbstractMethod
  | OutOfMemory
  | FileIo
  | BufferOverflow
  | InvalidParameter
  | InvalidArgument
  | UnsupportedFormat
  | IncorrectCodecVersion
  | IndexNotFound
  | OutOfSequence
  | NotInitialized
  | MustBeMultipleOf16LinesUntilLastCall
  | PlanarAlphaBandedEncRequiresTempFile
  | AlphaModeCannotBeTranscoded
  | IncorrectCodecSubVersion
  deriving DecidableEq, Repr

open JXRError

/-- Embedding of fn call (src/lib.rs, lines 123-148): wraps a C status
code into a Result.  Nonnegative is success; the match over the known
negative constants is rendered as a chain of equality tests in the same
order as the Rust match arms, with the wildcard arm giving UnknownError. -/
def call (err : Int) : Except JXRError Unit :=
  if err ≥ 0 then
    Except.ok ()
  else
    Except.error <|
      if err = WMP_errFail then Fail
      else if err = WMP_errNotYetImplemented then NotYetImplemented
      else if err = WMP_errAbstractMethod then AbstractMethod
      else if err = WMP_errOutOfMemory then OutOfMemory
      else if err = WMP_errFileIo then FileIo
      else if err = WMP_errBufferOverflow then BufferOverflow
      else if err = WMP_errInvalidParameter then InvalidParameter
      else if err = WMP_errInvalidArgument then InvalidArgument
      else if err = WMP_errUnsupportedFormat then UnsupportedFormat
      else if err = WMP_errIncorrectCodecVersion then IncorrectCodecVersion
      else if err = WMP_errIndexNotFound then IndexNotFound
      else if err = WMP_errOutOfSequence then OutOfSequence
      else if err = WMP_errNotInitialized then NotInitialized
      else if err = WMP_errMustBeMultipleOf16LinesUntilLastCall then
        MustBeMultipleOf16LinesUntilLastCall
      else if err = WMP_errPlanarAlphaBandedEncRequiresTempFile then
        PlanarAlphaBandedEncRequiresTempFile
      else if err = WMP_errAlphaModeCannotBeTranscoded then
        AlphaModeCannotBeTranscoded
      else if err = WMP_errIncorrectCodecSubVersion then
        IncorrectCodecSubVersion
      else UnknownError

/-- The fixed table of known failure codes and the error each translates
to, in the order of the match arms of fn call. -/
def knownCodes : List (Int × JXRError) :=
  [ (WMP_errFail, Fail),
    (WMP_errNotYetImplemented, NotYetImplemented),
    (WMP_errAbstractMethod, AbstractMethod),
    (WMP_errOutOfMemory, OutOfMemory),
    (WMP_errFileIo, FileIo),
    (WMP_errBufferOverflow, BufferOverflow),
    (WMP_errInvalidParameter, InvalidParameter),
    (WMP_errInvalidArgument, InvalidArgument),
    (WMP_errUnsupportedFormat, UnsupportedFormat),
    (WMP_errIncorrectCodecVersion, IncorrectCodecVersion),
    (WMP_errIndexNotFound, IndexNotFound),
    (WMP_errOutOfSequence, OutOfSequence),
    (WMP_errNotInitialized, NotInitialized),
    (WMP_errMustBeMultipleOf16LinesUntilLastCall, MustBeMultipleOf16LinesUntilLastCall),
    (WMP_errPlanarAlphaBandedEncRequiresTempFile, PlanarAlphaBandedEncRequiresTempFile),
    (WMP_errAlphaModeCannotBeTranscoded, AlphaModeCannotBeTranscoded),
    (WMP_errIncorrectCodecSubVersion, IncorrectCodecSubVersion) ]

/-- C3: the status translator is total: every nonnegative code yields
Ok; each of the 17 known negative codes yields its own error variant,
and those variants are pairwise distinct (and distinct from
UnknownError); every other negative code yields the generic
UnknownError.  Totality (never panicking) is witnessed by call being a
total function of type Int to Except. -/
theorem call_total_spec :
    (knownCodes.map Prod.snd).Nodup ∧
    UnknownError ∉ knownCodes.map Prod.snd ∧
    ∀ code : Int,
      (0 ≤ code → call code = Except.ok ()) ∧
      (∀ p ∈ knownCodes, code = p.1 → call code = Except.error p.2) ∧
      (code < 0 → (∀ p ∈ knownCodes, code ≠ p.1) →
        call code = Except.error UnknownError) := by
  refine ⟨by decide, by decide, fun code => ⟨?_, ?_, ?_⟩⟩
  · intro h
    simp [call, h]
  · intro p hp hcode
    subst hcode
    fin_cases hp <;> rfl
  · intro hneg hunk
    have h1 : code ≠ WMP_errFail := hunk (WMP_errFail, JXRError.Fail) (by decide)
    have h2 : code ≠ WMP_errNotYetImplemented := hunk (WMP_errNotYetImplemented, JXRError.NotYetImplemented) (by decide)
    have h3 : code ≠ WMP_errAbstractMethod := hunk (WMP_errAbstractMethod, JXRError.AbstractMethod) (by decide)
    have h4 : code ≠ WMP_errOutOfMemory := hunk (WMP_errOutOfMemory, JXRError.OutOfMemory) (by decide)
    have h5 : code ≠ WMP_errFileIo := hunk (WMP_errFileIo, JXRError.FileIo) (by decide)
    have h6 : code ≠ WMP_errBufferOverflow := hunk (WMP_errBufferOverflow, JXRError.BufferOverflow) (by decide)
    have h7 : code ≠ WMP_errInvalidParameter := hunk (WMP_errInvalidParameter, JXRError.InvalidParameter) (by decide)
    have h8 : code ≠ WMP_errInvalidArgument := hunk (WMP_errInvalidArgument, JXRError.InvalidArgument) (by decide)
    have h9 : code ≠ WMP_errUnsupportedFormat := hunk (WMP_errUnsupportedFormat, JXRError.UnsupportedFormat) (by decide)
    have h10 : code ≠ WMP_errIncorrectCodecVersion := hunk (WMP_errIncorrectCodecVersion, JXRError.IncorrectCodecVersion) (by decide)
    have h11 : code ≠ WMP_errIndexNotFound := hunk (WMP_errIndexNotFound, JXRError.IndexNotFound) (by decide)
    have h12 : code ≠ WMP_errOutOfSequence := hunk (WMP_errOutOfSequence, JXRError.OutOfSequence) (by decide)
    have h13 : code ≠ WMP_errNotInitialized := hunk (WMP_errNotInitialized, JXRError.NotInitialized) (by decide)
    have h14 : code ≠ WMP_errMustBeMultipleOf16LinesUntilLastCall := hunk (WMP_errMustBeMultipleOf16LinesUntilLastCall, JXRError.MustBeMultipleOf16LinesUntilLastCall) (by decide)
    have h15 : code ≠ WMP_errPlanarAlphaBandedEncRequiresTempFile := hunk (WMP_errPlanarAlphaBandedEncRequiresTempFile, JXRError.PlanarAlphaBandedEncRequiresTempFile) (by decide)
    have h16 : code ≠ WMP_errAlphaModeCannotBeTranscoded := hunk (WMP_errAlphaModeCannotBeTranscoded, JXRError.AlphaModeCannotBeTranscoded) (by decide)
    have h17 : code ≠ WMP_errIncorrectCodecSubVersion := hunk (WMP_errIncorrectCodecSubVersion, JXRError.IncorrectCodecSubVersion) (by decide)
    simp [call, not_le.mpr hneg, h1, h2, h3, h4, h5, h6, h7, h8, h9, h10,
      h11, h12, h13, h14, h15, h16, h17]

/-- Witness for call_total_spec: concrete evaluations discharging each
hypothesis at concrete codes. -/
theorem call_total_spec_witness :
    call 5 = Except.ok () ∧
    call (-102) = Except.error FileIo ∧
    call (-300) = Except.error UnknownError := by
  refine ⟨(call_total_spec.2.2 5).1 (by decide),
          ?_, (call_total_spec.2.2 (-300)).2.2 (by decide) (by decide)⟩
  have hm : (WMP_errFileIo, FileIo) ∈ knownCodes := by decide
  exact (call_total_spec.2.2 (-102)).2.1 _ hm rfl

/-! ## Format registry

Modelled from the spec: the GUID_PKPixelFormat constants are 128-bit
format identifiers defined by the external codec specification and
surfaced through the generated bindings (not under src/).  They are
opaque values compared byte-wise, and distinctly named constants are
distinct values; we model them as distinct natural numbers below
2 ^ 128.  The entry of GUID_MAP for PixelFormat48bppRGBHalf refers, as
the source does, to the same constant GUID_PKPixelFormat48bppRGB that
the entry for PixelFormat48bppRGB uses. -/

abbrev GUID : Type := Nat

def GUID_PKPixelFormatDontCare : GUID := 1

def GUID_PKPixelFormatBlackWhite : GUID := 2

def GUID_PKPixelFormat8bppGray : GUID := 3

def GUID_PKPixelFormat16bppRGB555 : GUID := 4

def GUID_PKPixelFormat16bppRGB565 : GUID := 5

def GUID_PKPixelFormat16bppGray : GUID := 6

def GUID_PKPixelFormat24bppBGR : GUID := 7

def GUID_PKPixelFormat24bppRGB : GUID := 8

def GUID_PKPixelFormat32bppBGR : GUID := 9

def GUID_PKPixelFormat32bppBGRA : GUID := 10

def GUID_PKPixelFormat32bppPBGRA : GUID := 11

def GUID_PKPixelFormat32bppGrayFloat : GUID := 12

def GUID_PKPixelFormat32bppRGB : GUID := 13

def GUID_PKPixelFormat32bppRGBA : GUID := 14

def GUID_PKPixelFormat32bppPRGBA : GUID := 15

def GUID_PKPixelFormat48bppRGBFixedPoint : GUID := 16

def GUID_PKPixelFormat16bppGrayFixedPoint : GUID := 17

def GUID_PKPixelFormat32bppRGB101010 : GUID := 18

def GUID_PKPixelFormat48bppRGB : GUID := 19

def GUID_PKPixelFormat64bppRGBA : GUID := 20

def GUID_PKPixelFormat64bppPRGBA : GUID := 21

def GUID_PKPixelFormat96bppRGBFixedPoint : GUID := 22

def GUID_PKPixelFormat96bppRGBFloat : GUID := 23

def GUID_PKPixelFormat128bppRGBAFloat : GUID := 24

def GUID_PKPixelFormat128bppPRGBAFloat : GUID := 25

def GUID_PKPixelFormat128bppRGBFloat : GUID := 26

def GUID_PKPixelFormat32bppCMYK : GUID := 27

def GUID_PKPixelFormat64bppRGBAFixedPoint : GUID := 28

def GUID_PKPixelFormat64bppRGBFixedPoint : GUID := 29

def GUID_PKPixelFormat128bppRGBAFixedPoint : GUID := 30

def GUID_PKPixelFormat128bppRGBFixedPoint : GUID := 31

def GUID_PKPixelFormat64bppRGBAHalf : GUID := 32

def GUID_PKPixelFormat64bppRGBHalf : GUID := 33

def GUID_PKPixelFormat32bppRGBE : GUID := 34

def GUID_PKPixelFormat16bppGrayHalf : GUID := 35

def GUID_PKPixelFormat32bppGrayFixedPoint : GUID := 36

def GUID_PKPixelFormat64bppCMYK : GUID := 37

def GUID_PKPixelFormat24bpp3Channels : GUID := 38

def GUID_PKPixelFormat32bpp4Channels : GUID := 39

def GUID_PKPixelFormat40bpp5Channels : GUID := 40

def GUID_PKPixelFormat48bpp6Channels : GUID := 41

def GUID_PKPixelFormat56bpp7Channels : GUID := 42

def GUID_PKPixelFormat64bpp8Channels : GUID := 43

def GUID_PKPixelFormat48bpp3Channels : GUID := 44

def GUID_PKPixelFormat64bpp4Channels : GUID := 45

def GUID_PKPixelFormat80bpp5Channels : GUID := 46

def GUID_PKPixelFormat96bpp6Channels : GUID := 47

def GUID_PKPixelFormat112bpp7Channels : GUID := 48

def GUID_PKPixelFormat128bpp8Channels : GUID := 49

def GUID_PKPixelFormat40bppCMYKAlpha : GUID := 50

def GUID_PKPixelFormat80bppCMYKAlpha : GUID := 51

def GUID_PKPixelFormat32bpp3ChannelsAlpha : GUID := 52

def GUID_PKPixelFormat40bpp4ChannelsAlpha : GUID := 53

def GUID_PKPixelFormat48bpp5ChannelsAlpha : GUID := 54

def GUID_PKPixelFormat56bpp6ChannelsAlpha : GUID := 55

def GUID_PKPixelFormat64bpp7ChannelsAlpha : GUID := 56

def GUID_PKPixelFormat72bpp8ChannelsAlpha : GUID := 57

def GUID_PKPixelFormat64bpp3ChannelsAlpha : GUID := 58

def GUID_PKPixelFormat80bpp4ChannelsAlpha : GUID := 59

def GUID_PKPixelFormat96bpp5ChannelsAlpha : GUID := 60

def GUID_PKPixelFormat112bpp6ChannelsAlpha : GUID := 61

def GUID_PKPixelFormat128bpp7ChannelsAlpha : GUID := 62

def GUID_PKPixelFormat144bpp8ChannelsAlpha : GUID := 63

def GUID_PKPixelFormat12bppYCC420 : GUID := 64

def GUID_PKPixelFormat16bppYCC422 : GUID := 65

def GUID_PKPixelFormat20bppYCC422 : GUID := 66

def GUID_PKPixelFormat32bppYCC422 : GUID := 67

def GUID_PKPixelFormat24bppYCC444 : GUID := 68

def GUID_PKPixelFormat30bppYCC444 : GUID := 69

def GUID_PKPixelFormat48bppYCC444 : GUID := 70

def GUID_PKPixelFormat16bpp48bppYCC444FixedPoint : GUID := 71

def GUID_PKPixelFormat20bppYCC420Alpha : GUID := 72

def GUID_PKPixelFormat24bppYCC422Alpha : GUID := 73

def GUID_PKPixelFormat30bppYCC422Alpha : GUID := 74

def GUID_PKPixelFormat48bppYCC422Alpha : GUID := 75

def GUID_PKPixelFormat32bppYCC444Alpha : GUID := 76

def GUID_PKPixelFormat40bppYCC444Alpha : GUID := 77

def GUID_PKPixelFormat64bppYCC444Alpha : GUID := 78

def GUID_PKPixelFormat64bppYCC444AlphaFixedPoint : GUID := 79

def GUID_PKPixelFormat32bppCMYKDIRECT : GUID := 80

def GUID_PKPixelFormat64bppCMYKDIRECT : GUID := 81

def GUID_PKPixelFormat40bppCMYKDIRECTAlpha : GUID := 82

def GUID_PKPixelFormat80bppCMYKDIRECTAlpha : GUID := 83

/-- Embedding of the PixelFormat enum of src/lib.rs (lines 154-258),
one constructor per Rust variant, in source order. -/
inductive PixelFormat where
  | PixelFormatDontCare
  | PixelFormatBlackWhite
  | PixelFormat8bppGray
  | PixelFormat16bppRGB555
  | PixelFormat16bppRGB565
  | PixelFormat16bppGray
  | PixelFormat24bppBGR
  | PixelFormat24bppRGB
  | PixelFormat32bppBGR
  | PixelFormat32bppBGRA
  | PixelFormat32bppPBGRA
  | PixelFormat32bppGrayFloat
  | PixelFormat32bppRGB
  | PixelFormat32bppRGBA
  | PixelFormat32bppPRGBA
  | PixelFormat48bppRGBFixedPoint
  | PixelFormat16bppGrayFixedPoint
  | PixelFormat32bppRGB101010
  | PixelFormat48bppRGB
  | PixelFormat64bppRGBA
  | PixelFormat64bppPRGBA
  | PixelFormat96bppRGBFixedPoint
  | PixelFormat96bppRGBFloat
  | PixelFormat128bppRGBAFloat
  | PixelFormat128bppPRGBAFloat
  | PixelFormat128bppRGBFloat
  | PixelFormat32bpp
  | PixelFormat64bppRGBAFixedPoint
  | PixelFormat64bppRGBFixedPoint
  | PixelFormat128bppRGBAFixedPoint
  | PixelFormat128bppRGBFixedPoint
  | PixelFormat64bppRGBAHalf
  | PixelFormat64bppRGBHalf
  | PixelFormat48bppRGBHalf
  | PixelFormat32bppRGBE
  | PixelFormat16bppGrayHalf
  | PixelFormat32bppGrayFixedPoint
  | PixelFormat64bppCMYK
  | PixelFormat24bpp3Channels
  | PixelFormat32bpp4Channels
  | PixelFormat40bpp5Channels
  | PixelFormat48bpp6Channels
  | PixelFormat56bpp7Channels
  | PixelFormat64bpp8Channels
  | PixelFormat48bpp3Channels
  | PixelFormat64bpp4Channels
  | PixelFormat80bpp5Channels
  | PixelFormat96bpp6Channels
  | PixelFormat112bpp7Channels
  | PixelFormat128bpp8Channels
  | PixelFormat40bppCMYKAlpha
  | PixelFormat80bppCMYKAlpha
  | PixelFormat32bpp3ChannelsAlpha
  | PixelFormat40bpp4ChannelsAlpha
  | PixelFormat48bpp5ChannelsAlpha
  | PixelFormat56bpp6ChannelsAlpha
  | PixelFormat64bpp7ChannelsAlpha
  | PixelFormat72bpp8ChannelsAlpha
  | PixelFormat64bpp3ChannelsAlpha
  | PixelFormat80bpp4ChannelsAlpha
  | PixelFormat96bpp5ChannelsAlpha
  | PixelFormat112bpp6ChannelsAlpha
  | PixelFormat128bpp7ChannelsAlpha
  | PixelFormat144bpp8ChannelsAlpha
  | PixelFormat12bppYCC420
  | PixelFormat16bppYCC422
  | PixelFormat20bppYCC422
  | PixelFormat32bppYCC422
  | PixelFormat24bppYCC444
  | PixelFormat30bppYCC444
  | PixelFormat48bppYCC444
  | PixelFormat16bpp48bppYCC444FixedPoint
  | PixelFormat20bppYCC420Alpha
  | PixelFormat24bppYCC422Alpha
  | PixelFormat30bppYCC422Alpha
  | PixelFormat48bppYCC422Alpha
  | PixelFormat32bppYCC444Alpha
  | PixelFormat40bppYCC444Alpha
  | PixelFormat64bppYCC444Alpha
  | PixelFormat64bppYCC444AlphaFixedPoint
  | PixelFormat32bppCMYKDIRECT
  | PixelFormat64bppCMYKDIRECT
  | PixelFormat40bppCMYKDIRECTAlpha
  | PixelFormat80bppCMYKDIRECTAlpha
  deriving DecidableEq, Fintype, Repr

/-- Embedding of the static GUID_MAP table of src/lib.rs (lines 261-366),
in source order. -/
def GUID_MAP : List (GUID × PixelFormat) :=
  [(GUID_PKPixelFormatDontCare, PixelFormat.PixelFormatDontCare),
  (GUID_PKPixelFormatBlackWhite, PixelFormat.PixelFormatBlackWhite),
  (GUID_PKPixelFormat8bppGray, PixelFormat.PixelFormat8bppGray),
  (GUID_PKPixelFormat16bppRGB555, PixelFormat.PixelFormat16bppRGB555),
  (GUID_PKPixelFormat16bppRGB565, PixelFormat.PixelFormat16bppRGB565),
  (GUID_PKPixelFormat16bppGray, PixelFormat.PixelFormat16bppGray),
  (GUID_PKPixelFormat24bppBGR, PixelFormat.PixelFormat24bppBGR),
  (GUID_PKPixelFormat24bppRGB, PixelFormat.PixelFormat24bppRGB),
  (GUID_PKPixelFormat32bppBGR, PixelFormat.PixelFormat32bppBGR),
  (GUID_PKPixelFormat32bppBGRA, PixelFormat.PixelFormat32bppBGRA),
  (GUID_PKPixelFormat32bppPBGRA, PixelFormat.PixelFormat32bppPBGRA),
  (GUID_PKPixelFormat32bppGrayFloat, PixelFormat.PixelFormat32bppGrayFloat),
  (GUID_PKPixelFormat32bppRGB, PixelFormat.PixelFormat32bppRGB),
  (GUID_PKPixelFormat32bppRGBA, PixelFormat.PixelFormat32bppRGBA),
  (GUID_PKPixelFormat32bppPRGBA, PixelFormat.PixelFormat32bppPRGBA),
  (GUID_PKPixelFormat48bppRGBFixedPoint, PixelFormat.PixelFormat48bppRGBFixedPoint),
  (GUID_PKPixelFormat16bppGrayFixedPoint, PixelFormat.PixelFormat16bppGrayFixedPoint),
  (GUID_PKPixelFormat32bppRGB101010, PixelFormat.PixelFormat32bppRGB101010),
  (GUID_PKPixelFormat48bppRGB, PixelFormat.PixelFormat48bppRGB),
  (GUID_PKPixelFormat64bppRGBA, PixelFormat.PixelFormat64bppRGBA),
  (GUID_PKPixelFormat64bppPRGBA, PixelFormat.PixelFormat64bppPRGBA),
  (GUID_PKPixelFormat96bppRGBFixedPoint, PixelFormat.PixelFormat96bppRGBFixedPoint),
  (GUID_PKPixelFormat96bppRGBFloat, PixelFormat.PixelFormat96bppRGBFloat),
  (GUID_PKPixelFormat128bppRGBAFloat, PixelFormat.PixelFormat128bppRGBAFloat),
  (GUID_PKPixelFormat128bppPRGBAFloat, PixelFormat.PixelFormat128bppPRGBAFloat),
  (GUID_PKPixelFormat128bppRGBFloat, PixelFormat.PixelFormat128bppRGBFloat),
  (GUID_PKPixelFormat32bppCMYK, PixelFormat.PixelFormat32bpp),
  (GUID_PKPixelFormat64bppRGBAFixedPoint, PixelFormat.PixelFormat64bppRGBAFixedPoint),
  (GUID_PKPixelFormat64bppRGBFixedPoint, PixelFormat.PixelFormat64bppRGBFixedPoint),
  (GUID_PKPixelFormat128bppRGBAFixedPoint, PixelFormat.PixelFormat128bppRGBAFixedPoint),
  (GUID_PKPixelFormat128bppRGBFixedPoint, PixelFormat.PixelFormat128bppRGBFixedPoint),
  (GUID_PKPixelFormat64bppRGBAHalf, PixelFormat.PixelFormat64bppRGBAHalf),
  (GUID_PKPixelFormat64bppRGBHalf, PixelFormat.PixelFormat64bppRGBHalf),
  (GUID_PKPixelFormat48bppRGB, PixelFormat.PixelFormat48bppRGBHalf),
  (GUID_PKPixelFormat32bppRGBE, PixelFormat.PixelFormat32bppRGBE),
  (GUID_PKPixelFormat16bppGrayHalf, PixelFormat.PixelFormat16bppGrayHalf),
  (GUID_PKPixelFormat32bppGrayFixedPoint, PixelFormat.PixelFormat32bppGrayFixedPoint),
  (GUID_PKPixelFormat64bppCMYK, PixelFormat.PixelFormat64bppCMYK),
  (GUID_PKPixelFormat24bpp3Channels, PixelFormat.PixelFormat24bpp3Channels),
  (GUID_PKPixelFormat32bpp4Channels, PixelFormat.PixelFormat32bpp4Channels),
  (GUID_PKPixelFormat40bpp5Channels, PixelFormat.PixelFormat40bpp5Channels),
  (GUID_PKPixelFormat48bpp6Channels, PixelFormat.PixelFormat48bpp6Channels),
  (GUID_PKPixelFormat56bpp7Channels, PixelFormat.PixelFormat56bpp7Channels),
  (GUID_PKPixelFormat64bpp8Channels, PixelFormat.PixelFormat64bpp8Channels),
  (GUID_PKPixelFormat48bpp3Channels, PixelFormat.PixelFormat48bpp3Channels),
  (GUID_PKPixelFormat64bpp4Channels, PixelFormat.PixelFormat64bpp4Channels),
  (GUID_PKPixelFormat80bpp5Channels, PixelFormat.PixelFormat80bpp5Channels),
  (GUID_PKPixelFormat96bpp6Channels, PixelFormat.PixelFormat96bpp6Channels),
  (GUID_PKPixelFormat112bpp7Channels, PixelFormat.PixelFormat112bpp7Channels),
  (GUID_PKPixelFormat128bpp8Channels, PixelFormat.PixelFormat128bpp8Channels),
  (GUID_PKPixelFormat40bppCMYKAlpha, PixelFormat.PixelFormat40bppCMYKAlpha),
  (GUID_PKPixelFormat80bppCMYKAlpha, PixelFormat.PixelFormat80bppCMYKAlpha),
  (GUID_PKPixelFormat32bpp3ChannelsAlpha, PixelFormat.PixelFormat32bpp3ChannelsAlpha),
  (GUID_PKPixelFormat40bpp4ChannelsAlpha, PixelFormat.PixelFormat40bpp4ChannelsAlpha),
  (GUID_PKPixelFormat48bpp5ChannelsAlpha, PixelFormat.PixelFormat48bpp5ChannelsAlpha),
  (GUID_PKPixelFormat56bpp6ChannelsAlpha, PixelFormat.PixelFormat56bpp6ChannelsAlpha),
  (GUID_PKPixelFormat64bpp7ChannelsAlpha, PixelFormat.PixelFormat64bpp7ChannelsAlpha),
  (GUID_PKPixelFormat72bpp8ChannelsAlpha, PixelFormat.PixelFormat72bpp8ChannelsAlpha),
  (GUID_PKPixelFormat64bpp3ChannelsAlpha, PixelFormat.PixelFormat64bpp3ChannelsAlpha),
  (GUID_PKPixelFormat80bpp4ChannelsAlpha, PixelFormat.PixelFormat80bpp4ChannelsAlpha),
  (GUID_PKPixelFormat96bpp5ChannelsAlpha, PixelFormat.PixelFormat96bpp5ChannelsAlpha),
  (GUID_PKPixelFormat112bpp6ChannelsAlpha, PixelFormat.PixelFormat112bpp6ChannelsAlpha),
  (GUID_PKPixelFormat128bpp7ChannelsAlpha, PixelFormat.PixelFormat128bpp7ChannelsAlpha),
  (GUID_PKPixelFormat144bpp8ChannelsAlpha, PixelFormat.PixelFormat144bpp8ChannelsAlpha),
  (GUID_PKPixelFormat12bppYCC420, PixelFormat.PixelFormat12bppYCC420),
  (GUID_PKPixelFormat16bppYCC422, PixelFormat.PixelFormat16bppYCC422),
  (GUID_PKPixelFormat20bppYCC422, PixelFormat.PixelFormat20bppYCC422),
  (GUID_PKPixelFormat32bppYCC422, PixelFormat.PixelFormat32bppYCC422),
  (GUID_PKPixelFormat24bppYCC444, PixelFormat.PixelFormat24bppYCC444),
  (GUID_PKPixelFormat30bppYCC444, PixelFormat.PixelFormat30bppYCC444),
  (GUID_PKPixelFormat48bppYCC444, PixelFormat.PixelFormat48bppYCC444),
  (GUID_PKPixelFormat16bpp48bppYCC444FixedPoint, PixelFormat.PixelFormat16bpp48bppYCC444FixedPoint),
  (GUID_PKPixelFormat20bppYCC420Alpha, PixelFormat.PixelFormat20bppYCC420Alpha),
  (GUID_PKPixelFormat24bppYCC422Alpha, PixelFormat.PixelFormat24bppYCC422Alpha),
  (GUID_PKPixelFormat30bppYCC422Alpha, PixelFormat.PixelFormat30bppYCC422Alpha),
  (GUID_PKPixelFormat48bppYCC422Alpha, PixelFormat.PixelFormat48bppYCC422Alpha),
  (GUID_PKPixelFormat32bppYCC444Alpha, PixelFormat.PixelFormat32bppYCC444Alpha),
  (GUID_PKPixelFormat40bppYCC444Alpha, PixelFormat.PixelFormat40bppYCC444Alpha),
  (GUID_PKPixelFormat64bppYCC444Alpha, PixelFormat.PixelFormat64bppYCC444Alpha),
  (GUID_PKPixelFormat64bppYCC444AlphaFixedPoint, PixelFormat.PixelFormat64bppYCC444AlphaFixedPoint),
  (GUID_PKPixelFormat32bppCMYKDIRECT, PixelFormat.PixelFormat32bppCMYKDIRECT),
  (GUID_PKPixelFormat64bppCMYKDIRECT, PixelFormat.PixelFormat64bppCMYKDIRECT),
  (GUID_PKPixelFormat40bppCMYKDIRECTAlpha, PixelFormat.PixelFormat40bppCMYKDIRECTAlpha),
  (GUID_PKPixelFormat80bppCMYKDIRECTAlpha, PixelFormat.PixelFormat80bppCMYKDIRECTAlpha) ]


/-- Embedding of PixelFormat::guid (src/lib.rs, lines 370-377): scan
GUID_MAP for the first entry whose variant equals self and return its
GUID; the unreachable-panic fallthrough is modelled as none. -/
def PixelFormat.guid (pf : PixelFormat) : Option GUID :=
  (GUID_MAP.find? fun p => p.2 == pf).map Prod.fst

/-- Embedding of PixelFormat::from_guid (src/lib.rs, lines 379-387):
scan GUID_MAP for the first entry whose GUID equals the argument and
return its variant, else the unrecognized-pixel-format error. -/
def PixelFormat.from_guid (g : GUID) : Except JXRError PixelFormat :=
  match GUID_MAP.find? (fun p => p.1 == g) with
  | some p => Except.ok p.2
  | none => Except.error UnrecognizedPixelFormat

/-- C9: the forward lookup is total over the closed enumeration: every
PixelFormat variant has a matching entry in GUID_MAP, so
PixelFormat::guid returns it and the unreachable-panic branch (modelled
as none) is never executed. -/
theorem guid_total : ∀ pf : PixelFormat, (PixelFormat.guid pf).isSome = true := by
  decide

/-- C1: evaluation at the failing input.  PixelFormat48bppRGBHalf maps
through PixelFormat::guid to GUID_PKPixelFormat48bppRGB (GUID_MAP line
304 reuses that constant), and mapping that identifier back through
PixelFormat::from_guid yields PixelFormat48bppRGB, the earlier entry
with the same identifier, not PixelFormat48bppRGBHalf: the round-trip
claim fails for this variant. -/
theorem roundtrip_fails_at_48bppRGBHalf :
    PixelFormat.guid PixelFormat.PixelFormat48bppRGBHalf =
      some GUID_PKPixelFormat48bppRGB ∧
    PixelFormat.from_guid GUID_PKPixelFormat48bppRGB =
      Except.ok PixelFormat.PixelFormat48bppRGB ∧
    PixelFormat.PixelFormat48bppRGB ≠ PixelFormat.PixelFormat48bppRGBHalf := by
  refine ⟨rfl, rfl, by decide⟩

/-- C7: for every format identifier not present in the static table,
PixelFormat::from_guid returns the UnrecognizedPixelFormat error (and,
being a total function, never panics). -/
theorem from_guid_unknown (g : GUID) (h : g ∉ GUID_MAP.map Prod.fst) :
    PixelFormat.from_guid g = Except.error UnrecognizedPixelFormat := by
  have hf : GUID_MAP.find? (fun p => p.1 == g) = none := by
    rw [List.find?_eq_none]
    intro x hx
    simp only [beq_iff_eq]
    intro heq
    subst heq
    exact h (List.mem_map_of_mem Prod.fst hx)
  simp [PixelFormat.from_guid, hf]

/-- Witness for from_guid_unknown at the concrete identifier 1000000,
which is not in the table. -/
theorem from_guid_unknown_witness :
    PixelFormat.from_guid 1000000 = Except.error UnrecognizedPixelFormat :=
  from_guid_unknown 1000000 (by decide)

/-! ## Sub-field enumerations

Modelled from the spec: COLORFORMAT, BITDEPTH_BITS and the PK_PI
photometric-interpretation constants are small integer codes defined in
the generated bindings (not under src/); each code domain is a fixed set
of distinct values. -/

def COLORFORMAT_Y_ONLY : Nat := 0

def COLORFORMAT_YUV_420 : Nat := 1

def COLORFORMAT_YUV_422 : Nat := 2

def COLORFORMAT_YUV_444 : Nat := 3

def COLORFORMAT_CMYK : Nat := 4

def COLORFORMAT_NCOMPONENT : Nat := 6

def COLORFORMAT_CF_RGB : Nat := 7

def COLORFORMAT_CF_RGBE : Nat := 8

def PK_PI_W0 : Nat := 0

def PK_PI_B0 : Nat := 1

def PK_PI_RGB : Nat := 2

def PK_PI_RGBPalette : Nat := 3

def PK_PI_TransparencyMask : Nat := 4

def PK_PI_CMYK : Nat := 5

def PK_PI_YCbCr : Nat := 6

def PK_PI_CIELab : Nat := 8

def PK_PI_NCH : Nat := 100

def PK_PI_RGBE : Nat := 101

def BITDEPTH_BITS_BD_1 : Nat := 0

def BITDEPTH_BITS_BD_8 : Nat := 1

def BITDEPTH_BITS_BD_16 : Nat := 2

def BITDEPTH_BITS_BD_16S : Nat := 3

def BITDEPTH_BITS_BD_16F : Nat := 4

def BITDEPTH_BITS_BD_32 : Nat := 5

def BITDEPTH_BITS_BD_32S : Nat := 6

def BITDEPTH_BITS_BD_32F : Nat := 7

def BITDEPTH_BITS_BD_5 : Nat := 8

def BITDEPTH_BITS_BD_10 : Nat := 9

def BITDEPTH_BITS_BD_565 : Nat := 10

def BITDEPTH_BITS_BD_1alt : Nat := 15

/-- Embedding of the ColorFormat enum of src/lib.rs (lines 390-400). -/
inductive ColorFormat where
  | YOnly
  | YUV420
  | YUV422
  | YUV444
  | CMYK
  | NComponent
  | RGB
  | RGBE
  deriving DecidableEq, Repr

/-- Embedding of ColorFormat::from_raw (src/lib.rs, lines 402-416): the
Rust match over the COLORFORMAT constants, wildcard arm giving the
UnrecognizedColorFormat error. -/
def ColorFormat.from_raw (raw : Nat) : Except JXRError ColorFormat :=
  if raw = COLORFORMAT_Y_ONLY then Except.ok ColorFormat.YOnly
  else if raw = COLORFORMAT_YUV_420 then Except.ok ColorFormat.YUV420
  else if raw = COLORFORMAT_YUV_422 then Except.ok ColorFormat.YUV422
  else if raw = COLORFORMAT_YUV_444 then Except.ok ColorFormat.YUV444
  else if raw = COLORFORMAT_CMYK then Except.ok ColorFormat.CMYK
  else if raw = COLORFORMAT_NCOMPONENT then Except.ok ColorFormat.NComponent
  else if raw = COLORFORMAT_CF_RGB then Except.ok ColorFormat.RGB
  else if raw = COLORFORMAT_CF_RGBE then Except.ok ColorFormat.RGBE
  else Except.error UnrecognizedColorFormat

/-- Embedding of the PhotometricInterpretation enum of src/lib.rs
(lines 418-430). -/
inductive PhotometricInterpretation where
  | WhiteIsZero
  | BlackIsZero
  | RGB
  | RGBPalette
  | TransparencyMask
  | CMYK
  | YCbCr
  | CIELab
  | NCH
  | RGBE
  deriving DecidableEq, Repr

/-- Embedding of PhotometricInterpretation::from_raw (src/lib.rs, lines
432-449). -/
def PhotometricInterpretation.from_raw (raw : Nat) :
    Except JXRError PhotometricInterpretation :=
  if raw = PK_PI_W0 then Except.ok PhotometricInterpretation.WhiteIsZero
  else if raw = PK_PI_B0 then Except.ok PhotometricInterpretation.BlackIsZero
  else if raw = PK_PI_RGB then Except.ok PhotometricInterpretation.RGB
  else if raw = PK_PI_RGBPalette then Except.ok PhotometricInterpretation.RGBPalette
  else if raw = PK_PI_TransparencyMask then Except.ok PhotometricInterpretation.TransparencyMask
  else if raw = PK_PI_CMYK then Except.ok PhotometricInterpretation.CMYK
  else if raw = PK_PI_YCbCr then Except.ok PhotometricInterpretation.YCbCr
  else if raw = PK_PI_CIELab then Except.ok PhotometricInterpretation.CIELab
  else if raw = PK_PI_NCH then Except.ok PhotometricInterpretation.NCH
  else if raw = PK_PI_RGBE then Except.ok PhotometricInterpretation.RGBE
  else Except.error UnrecognizedInterpretation

/-- Embedding of the BitDepthBits enum of src/lib.rs (lines 451-469). -/
inductive BitDepthBits where
  | One
  | Eight
  | Sixteen
  | SixteenS
  | SixteenF
  | ThirtyTwo
  | ThirtyTwoS
  | ThirtyTwoF
  | Five
  | Ten
  | FiveSixFive
  | OneAlt
  deriving DecidableEq, Repr

/-- Embedding of BitDepthBits::from_raw (src/lib.rs, lines 471-490). -/
def BitDepthBits.from_raw (raw : Nat) : Except JXRError BitDepthBits :=
  if raw = BITDEPTH_BITS_BD_1 then Except.ok BitDepthBits.One
  else if raw = BITDEPTH_BITS_BD_8 then Except.ok BitDepthBits.Eight
  else if raw = BITDEPTH_BITS_BD_16 then Except.ok BitDepthBits.Sixteen
  else if raw = BITDEPTH_BITS_BD_16S then Except.ok BitDepthBits.SixteenS
  else if raw = BITDEPTH_BITS_BD_16F then Except.ok BitDepthBits.SixteenF
  else if raw = BITDEPTH_BITS_BD_32 then Except.ok BitDepthBits.ThirtyTwo
  else if raw = BITDEPTH_BITS_BD_32S then Except.ok BitDepthBits.ThirtyTwoS
  else if raw = BITDEPTH_BITS_BD_32F then Except.ok BitDepthBits.ThirtyTwoF
  else if raw = BITDEPTH_BITS_BD_5 then Except.ok BitDepthBits.Five
  else if raw = BITDEPTH_BITS_BD_10 then Except.ok BitDepthBits.Ten
  else if raw = BITDEPTH_BITS_BD_565 then Except.ok BitDepthBits.FiveSixFive
  else if raw = BITDEPTH_BITS_BD_1alt then Except.ok BitDepthBits.OneAlt
  else Except.error UnrecognizedBitDepth

/-- The known COLORFORMAT codes (the non-wildcard match arms). -/
def knownColorFormatCodes : List Nat :=
  [COLORFORMAT_Y_ONLY, COLORFORMAT_YUV_420, COLORFORMAT_YUV_422,
   COLORFORMAT_YUV_444, COLORFORMAT_CMYK, COLORFORMAT_NCOMPONENT,
   COLORFORMAT_CF_RGB, COLORFORMAT_CF_RGBE]

/-- The known PK_PI photometric-interpretation codes. -/
def knownInterpretationCodes : List Nat :=
  [PK_PI_W0, PK_PI_B0, PK_PI_RGB, PK_PI_RGBPalette, PK_PI_TransparencyMask,
   PK_PI_CMYK, PK_PI_YCbCr, PK_PI_CIELab, PK_PI_NCH, PK_PI_RGBE]

/-- The known BITDEPTH_BITS codes. -/
def knownBitDepthCodes : List Nat :=
  [BITDEPTH_BITS_BD_1, BITDEPTH_BITS_BD_8, BITDEPTH_BITS_BD_16,
   BITDEPTH_BITS_BD_16S, BITDEPTH_BITS_BD_16F, BITDEPTH_BITS_BD_32,
   BITDEPTH_BITS_BD_32S, BITDEPTH_BITS_BD_32F, BITDEPTH_BITS_BD_5,
   BITDEPTH_BITS_BD_10, BITDEPTH_BITS_BD_565, BITDEPTH_BITS_BD_1alt]

/-- The fields of the raw PKPixelInfo record that the three sub-field
query methods of PixelInfo read (src/lib.rs, lines 492-563); the foreign
registry fills them with small integer codes. -/
structure PixelInfo where
  cfColorFormat : Nat
  bdBitDepth : Nat
  uInterpretation : Nat
  deriving DecidableEq, Repr

/-- Embedding of PixelInfo::color_format (src/lib.rs, lines 532-534):
the method unwraps the decoder result, so an unrecognized code panics;
the panic is modelled as none. -/
def PixelInfo.color_format (info : PixelInfo) : Option ColorFormat :=
  (ColorFormat.from_raw info.cfColorFormat).toOption

/-- Embedding of PixelInfo::bit_depth (src/lib.rs, lines 536-538), with
the unwrap panic modelled as none. -/
def PixelInfo.bit_depth (info : PixelInfo) : Option BitDepthBits :=
  (BitDepthBits.from_raw info.bdBitDepth).toOption

/-- Embedding of PixelInfo::photometric_interpretation (src/lib.rs,
lines 556-558), with the unwrap panic modelled as none. -/
def PixelInfo.photometric_interpretation (info : PixelInfo) :
    Option PhotometricInterpretation :=
  (PhotometricInterpretation.from_raw info.uInterpretation).toOption

/-- Every error produced by the status translator is one of the known
foreign error kinds or UnknownError; in particular it is never one of
the classification errors. -/
theorem call_error_not_classification (code : Int) :
    call code ≠ Except.error UnrecognizedColorFormat ∧
    call code ≠ Except.error UnrecognizedBitDepth ∧
    call code ≠ Except.error UnrecognizedInterpretation := by
  rcases eq_or_ne code WMP_errFail with h1 | h1
  · subst h1; exact ⟨by decide, by decide, by decide⟩
  rcases eq_or_ne code WMP_errNotYetImplemented with h2 | h2
  · subst h2; exact ⟨by decide, by decide, by decide⟩
  rcases eq_or_ne code WMP_errAbstractMethod with h3 | h3
  · subst h3; exact ⟨by decide, by decide, by decide⟩
  rcases eq_or_ne code WMP_errOutOfMemory with h4 | h4
  · subst h4; exact ⟨by decide, by decide, by decide⟩
  rcases eq_or_ne code WMP_errFileIo with h5 | h5
  · subst h5; exact ⟨by decide, by decide, by decide⟩
  rcases eq_or_ne code WMP_errBufferOverflow with h6 | h6
  · subst h6; exact ⟨by decide, by decide, by decide⟩
  rcases eq_or_ne code WMP_errInvalidParameter with h7 | h7
  · subst h7; exact ⟨by decide, by decide, by decide⟩
  rcases eq_or_ne code WMP_errInvalidArgument with h8 | h8
  · subst h8; exact ⟨by decide, by decide, by decide⟩
  rcases eq_or_ne code WMP_errUnsupportedFormat with h9 | h9
  · subst h9; exact ⟨by decide, by decide, by decide⟩
  rcases eq_or_ne code WMP_errIncorrectCodecVersion with h10 | h10
  · subst h10; exact ⟨by decide, by decide, by decide⟩
  rcases eq_or_ne code WMP_errIndexNotFound with h11 | h11
  · subst h11; exact ⟨by decide, by decide, by decide⟩
  rcases eq_or_ne code WMP_errOutOfSequence with h12 | h12
  · subst h12; exact ⟨by decide, by decide, by decide⟩
  rcases eq_or_ne code WMP_errNotInitialized with h13 | h13
  · subst h13; exact ⟨by decide, by decide, by decide⟩
  rcases eq_or_ne code WMP_errMustBeMultipleOf16LinesUntilLastCall with h14 | h14
  · subst h14; exact ⟨by decide, by decide, by decide⟩
  rcases eq_or_ne code WMP_errPlanarAlphaBandedEncRequiresTempFile with h15 | h15
  · subst h15; exact ⟨by decide, by decide, by decide⟩
  rcases eq_or_ne code WMP_errAlphaModeCannotBeTranscoded with h16 | h16
  · subst h16; exact ⟨by decide, by decide, by decide⟩
  rcases eq_or_ne code WMP_errIncorrectCodecSubVersion with h17 | h17
  · subst h17; exact ⟨by decide, by decide, by decide⟩
  by_cases hpos : code ≥ 0
  · exact ⟨by simp [call, hpos], by simp [call, hpos], by simp [call, hpos]⟩
  · have hcall : call code = Except.error UnknownError := by
      simp [call, hpos, h1, h2, h3, h4, h5, h6, h7, h8, h9, h10, h11, h12, h13, h14, h15, h16, h17]
    rw [hcall]; exact ⟨by decide, by decide, by decide⟩

/-- A COLORFORMAT code outside the known set decodes to the
UnrecognizedColorFormat error. -/
theorem colorFormat_from_raw_unknown (raw : Nat)
    (h : raw ∉ knownColorFormatCodes) :
    ColorFormat.from_raw raw = Except.error UnrecognizedColorFormat := by
  simp only [knownColorFormatCodes, List.mem_cons, List.not_mem_nil,
    or_false, not_or] at h
  obtain ⟨h0, h1, h2, h3, h4, h5, h6, h7⟩ := h
  simp [ColorFormat.from_raw, h0, h1, h2, h3, h4, h5, h6, h7]

/-- A BITDEPTH_BITS code outside the known set decodes to the
UnrecognizedBitDepth error. -/
theorem bitDepth_from_raw_unknown (raw : Nat)
    (h : raw ∉ knownBitDepthCodes) :
    BitDepthBits.from_raw raw = Except.error UnrecognizedBitDepth := by
  simp only [knownBitDepthCodes, List.mem_cons, List.not_mem_nil,
    or_false, not_or] at h
  obtain ⟨h0, h1, h2, h3, h4, h5, h6, h7, h8, h9, h10, h11⟩ := h
  simp [BitDepthBits.from_raw, h0, h1, h2, h3, h4, h5, h6, h7, h8, h9, h10, h11]

/-- A PK_PI code outside the known set decodes to the
UnrecognizedInterpretation error. -/
theorem interpretation_from_raw_unknown (raw : Nat)
    (h : raw ∉ knownInterpretationCodes) :
    PhotometricInterpretation.from_raw raw =
      Except.error UnrecognizedInterpretation := by
  simp only [knownInterpretationCodes, List.mem_cons, List.not_mem_nil,
    or_false, not_or] at h
  obtain ⟨h0, h1, h2, h3, h4, h5, h6, h7, h8, h9⟩ := h
  simp [PhotometricInterpretation.from_raw, h0, h1, h2, h3, h4, h5, h6, h7, h8, h9]

/-- C8 counterexample: at the concrete out-of-range codes 999 the
decoders do produce the specific classification errors, but the
PixelInfo query methods, which unwrap those results, panic (modelled as
none) instead of failing with the error value the claim promises. -/
theorem pixelInfo_queries_panic_on_unknown :
    ColorFormat.from_raw 999 = Except.error UnrecognizedColorFormat ∧
    BitDepthBits.from_raw 999 = Except.error UnrecognizedBitDepth ∧
    PhotometricInterpretation.from_raw 999 = Except.error UnrecognizedInterpretation ∧
    PixelInfo.color_format ⟨999, 0, 0⟩ = none ∧
    PixelInfo.bit_depth ⟨0, 999, 0⟩ = none ∧
    PixelInfo.photometric_interpretation ⟨0, 0, 999⟩ = none := by
  decide

/-- C8 as amended: for every color-format, bit-depth or
photometric-interpretation code outside the enumerations known at build
time, the decoding functions from_raw fail with the specific
UnrecognizedColorFormat / UnrecognizedBitDepth /
UnrecognizedInterpretation error, each distinct from every error kind
the status translator can produce; the PixelInfo query methods unwrap
those results and panic (modelled as none) on such codes rather than
returning the error. -/
theorem subfield_decoding_unrecognized (c b i : Nat)
    (hc : c ∉ knownColorFormatCodes)
    (hb : b ∉ knownBitDepthCodes)
    (hi : i ∉ knownInterpretationCodes) :
    (ColorFormat.from_raw c = Except.error UnrecognizedColorFormat ∧
      (∀ code : Int, call code ≠ Except.error UnrecognizedColorFormat) ∧
      PixelInfo.color_format ⟨c, b, i⟩ = none) ∧
    (BitDepthBits.from_raw b = Except.error UnrecognizedBitDepth ∧
      (∀ code : Int, call code ≠ Except.error UnrecognizedBitDepth) ∧
      PixelInfo.bit_depth ⟨c, b, i⟩ = none) ∧
    (PhotometricInterpretation.from_raw i = Except.error UnrecognizedInterpretation ∧
      (∀ code : Int, call code ≠ Except.error UnrecognizedInterpretation) ∧
      PixelInfo.photometric_interpretation ⟨c, b, i⟩ = none) := by
  have hcc := colorFormat_from_raw_unknown c hc
  have hbb := bitDepth_from_raw_unknown b hb
  have hii := interpretation_from_raw_unknown i hi
  refine ⟨⟨hcc, fun code => (call_error_not_classification code).1, ?_⟩,
         ⟨hbb, fun code => (call_error_not_classification code).2.1, ?_⟩,
         ⟨hii, fun code => (call_error_not_classification code).2.2, ?_⟩⟩
  · simp [PixelInfo.color_format, hcc, Except.toOption]
  · simp [PixelInfo.bit_depth, hbb, Except.toOption]
  · simp [PixelInfo.photometric_interpretation, hii, Except.toOption]

/-- Witness for subfield_decoding_unrecognized at the concrete codes
500, 501 and 502. -/
theorem subfield_decoding_unrecognized_witness :
    ColorFormat.from_raw 500 = Except.error UnrecognizedColorFormat ∧
    PixelInfo.bit_depth ⟨500, 501, 502⟩ = none :=
  ⟨(subfield_decoding_unrecognized 500 501 502 (by decide) (by decide) (by decide)).1.1,
   (subfield_decoding_unrecognized 500 501 502 (by decide) (by decide) (by decide)).2.1.2.2⟩

/-! ## Stream adapter -/

/-- An in-memory seekable byte source: the canonical caller-supplied
reader (the Rust type parameter R of InputStream, with Read and Seek
capabilities), modelled as a byte list plus a current position. -/
structure ByteSource where
  data : List UInt8
  pos : Nat
  deriving DecidableEq, Repr

/-- Modelled from the spec: read_exact of the caller-supplied byte
source (external to this repository) performs an exact-length read: it
fills precisely cb bytes from the current position and advances by cb
when that many bytes remain, and fails otherwise, never reporting a
partial read as success. -/
def ByteSource.read_exact (s : ByteSource) (cb : Nat) :
    Except Unit (List UInt8 × ByteSource) :=
  if s.pos + cb ≤ s.data.length then
    Except.ok ((s.data.drop s.pos).take cb, ⟨s.data, s.pos + cb⟩)
  else
    Except.error ()

/-- Embedding of InputStream::input_stream_read (src/lib.rs, lines
611-619): delegate to read_exact on the wrapped reader; success status
when it fills the destination, the file-I/O failure status otherwise.
The result is the returned status code, the byte source afterwards, and
the bytes written into the destination buffer. -/
def input_stream_read (s : ByteSource) (cb : Nat) :
    Int × ByteSource × List UInt8 :=
  match s.read_exact cb with
  | Except.ok (bytes, s2) => (WMP_errSuccess, s2, bytes)
  | Except.error _ => (WMP_errFileIo, s, [])

/-- C6: the read callback satisfies the exact-read contract: when at
least cb bytes remain at the current position it returns the success
status, fills exactly cb bytes (the cb bytes of the source at that
position), and advances the position by cb; when fewer than cb bytes
remain it returns the file-I/O failure status, which is distinct from
the success status (never partial success). -/
theorem input_stream_read_exact_contract (s : ByteSource) (cb : Nat) :
    (s.pos + cb ≤ s.data.length →
      input_stream_read s cb =
        (WMP_errSuccess, ⟨s.data, s.pos + cb⟩, (s.data.drop s.pos).take cb) ∧
      ((s.data.drop s.pos).take cb).length = cb) ∧
    (s.data.length < s.pos + cb →
      (input_stream_read s cb).1 = WMP_errFileIo ∧
      WMP_errFileIo ≠ WMP_errSuccess) := by
  constructor
  · intro h
    constructor
    · simp [input_stream_read, ByteSource.read_exact, h]
    · rw [List.length_take, List.length_drop]
      omega
  · intro h
    have hn : ¬ (s.pos + cb ≤ s.data.length) := by omega
    constructor
    · simp [input_stream_read, ByteSource.read_exact, hn]
    · decide

/-- Witness for the exact-read contract on the concrete five-byte
source at position 1: a two-byte read succeeds and advances to 3, and
a ten-byte read fails with the file-I/O status. -/
theorem input_stream_read_exact_contract_witness :
    input_stream_read ⟨[10, 20, 30, 40, 50], 1⟩ 2 =
      (WMP_errSuccess, ⟨[10, 20, 30, 40, 50], 3⟩, [20, 30]) ∧
    (input_stream_read ⟨[10, 20, 30, 40, 50], 1⟩ 10).1 = WMP_errFileIo := by
  refine ⟨?_, ?_⟩
  · have h := (input_stream_read_exact_contract ⟨[10, 20, 30, 40, 50], 1⟩ 2).1
      (by decide)
    rw [h.1]
    rfl
  · exact ((input_stream_read_exact_contract ⟨[10, 20, 30, 40, 50], 1⟩ 10).2
      (by decide)).1

/-! ## Decoder handle lifecycle -/

/-- Observable foreign-side events of the decoder lifecycle:
allocation of a foreign decoder instance by PKImageDecode_Create_WMP,
and release of it through the Release entry point. -/
inductive FEvent where
  | createDecoder
  | releaseDecoder
  deriving DecidableEq, Repr

/-- The statuses the two foreign calls of ImageDecode::with_reader
return: PKImageDecode_Create_WMP and the Initialize entry point.
Modelled from the spec for the foreign side: a failing Create allocates
no resource (so no instance exists to release on that path). -/
structure FFI where
  createStatus : Int
  initStatus : Int
  deriving DecidableEq, Repr

/-- Embedding of ImageDecode::with_reader (src/lib.rs, lines 719-732):
build the stream adapter, call Create, then Initialize, each early
return mirroring the question-mark operator; the event list records the
foreign allocations and releases performed by the function itself.  On
the Initialize-failure path the function returns the translated error
with the already-allocated instance still unreleased: the raw pointer
has no drop glue and no handle is constructed, so no release event ever
follows. -/
def with_reader (ffi : FFI) : Except JXRError Unit × List FEvent :=
  match call ffi.createStatus with
  | Except.error e => (Except.error e, [])
  | Except.ok _ =>
    match call ffi.initStatus with
    | Except.error e => (Except.error e, [FEvent.createDecoder])
    | Except.ok _ => (Except.ok (), [FEvent.createDecoder])

/-- Embedding of the Drop impl for ImageDecode (src/lib.rs, lines
806-813): dropping a constructed handle invokes the Release entry point
once. -/
def dropEvents : List FEvent := [FEvent.releaseDecoder]

/-- Embedding of ImageDecode::into_reader (src/lib.rs, lines 799-804):
the stream is swapped out and returned, and self is dropped at the end
of the call, running the Drop impl, so Release is invoked once. -/
def intoReaderEvents : List FEvent := [FEvent.releaseDecoder]

/-- Full lifecycle trace: open a decoder and, if construction
succeeded, drop the handle; a failed construction produces no handle,
so no drop runs. -/
def openThenDrop (ffi : FFI) : List FEvent :=
  match with_reader ffi with
  | (Except.ok _, t) => t ++ dropEvents
  | (Except.error _, t) => t

/-- Full lifecycle trace: open a decoder and, if construction
succeeded, consume the handle with into_reader. -/
def openThenIntoReader (ffi : FFI) : List FEvent :=
  match with_reader ffi with
  | (Except.ok _, t) => t ++ intoReaderEvents
  | (Except.error _, t) => t

/-- C5: over a full handle lifetime the Release entry point runs
exactly once when construction succeeded, whether the handle is dropped
directly or consumed by into_reader, and never runs when construction
did not fully succeed. -/
theorem release_exactly_once (ffi : FFI) :
    ((with_reader ffi).1.isOk = true →
      (openThenDrop ffi).count FEvent.releaseDecoder = 1 ∧
      (openThenIntoReader ffi).count FEvent.releaseDecoder = 1) ∧
    ((with_reader ffi).1.isOk = false →
      (openThenDrop ffi).count FEvent.releaseDecoder = 0 ∧
      (openThenIntoReader ffi).count FEvent.releaseDecoder = 0) := by
  unfold openThenDrop openThenIntoReader with_reader
  rcases hc : call ffi.createStatus with e | u
  · simp [Except.isOk, Except.toBool]
  · rcases hi : call ffi.initStatus with e2 | u2 <;>
      simp [Except.isOk, Except.toBool, dropEvents, intoReaderEvents]

/-- Witness for release_exactly_once: with both foreign calls
succeeding the lifecycle releases once; with Initialize failing the
construction fails and no release happens. -/
theorem release_exactly_once_witness :
    (openThenDrop ⟨0, 0⟩).count FEvent.releaseDecoder = 1 ∧
    (openThenIntoReader ⟨0, WMP_errFail⟩).count FEvent.releaseDecoder = 0 :=
  ⟨((release_exactly_once ⟨0, 0⟩).1 (by decide)).1,
   ((release_exactly_once ⟨0, WMP_errFail⟩).2 (by decide)).2⟩

/-- C2: evaluation at the failing input.  With Create succeeding
(status 0) and Initialize failing (WMP_errFail), with_reader returns
the translated error while the trace holds the allocation of the
foreign decoder instance and no release: the instance allocated before
the failure is not released before (or ever after) the error return,
contradicting the claim.  The adapter itself is not leaked (the boxed
reader is freed by normal drop), so only the foreign instance is at
issue. -/
theorem with_reader_init_failure_leaks :
    with_reader ⟨0, WMP_errFail⟩ =
      (Except.error Fail, [FEvent.createDecoder]) ∧
    (openThenDrop ⟨0, WMP_errFail⟩).count FEvent.createDecoder = 1 ∧
    (openThenDrop ⟨0, WMP_errFail⟩).count FEvent.releaseDecoder = 0 := by
  decide

/-! ## Region copy -/

/-- Embedding of the Rect value type (src/lib.rs, lines 654-700):
plain signed pixel coordinates. -/
structure Rect where
  x : Int
  y : Int
  width : Int
  height : Int
  deriving DecidableEq, Repr

/-- Embedding of Rect::new (src/lib.rs, lines 662-671). -/
def Rect.new (x y width height : Int) : Rect :=
  ⟨x, y, width, height⟩

/-- Observable behavior of one foreign decoder instance for the size
and copy queries: the status GetSize returns together with the width
and height it writes, and the status the Copy entry point returns for a
given rectangle and stride. -/
structure ForeignDecoder where
  getSizeStatus : Int
  sizeOut : Int × Int
  copyStatus : Rect → Nat → Int

/-- Embedding of ImageDecode::get_size (src/lib.rs, lines 751-758):
call GetSize through the status translator and return the two out
parameters on success. -/
def get_size (d : ForeignDecoder) : Except JXRError (Int × Int) :=
  match call d.getSizeStatus with
  | Except.ok _ => Except.ok d.sizeOut
  | Except.error e => Except.error e

/-- Embedding of ImageDecode::copy (src/lib.rs, lines 777-783): the
stride (a usize) is first converted to u32, failing with the numeric
conversion error when it does not fit; only then is the foreign Copy
entry point invoked and its status translated.  The boolean records
whether the foreign Copy entry point was reached. -/
def copy (d : ForeignDecoder) (rect : Rect) (stride : Nat) :
    Except JXRError Unit × Bool :=
  if stride < 2 ^ 32 then
    (call (d.copyStatus rect stride), true)
  else
    (Except.error TryFromIntError, false)

/-- Embedding of ImageDecode::copy_all (src/lib.rs, lines 788-792):
query get_size, propagate its error, else copy the full-image rect. -/
def copy_all (d : ForeignDecoder) (stride : Nat) :
    Except JXRError Unit × Bool :=
  match get_size d with
  | Except.error e => (Except.error e, false)
  | Except.ok (w, h) => copy d (Rect.new 0 0 w h) stride

/-- C4: a stride not representable as u32 makes copy return the numeric
conversion error with the foreign Copy entry point never invoked; a
stride that fits converts successfully and the foreign call is reached.
Through copy_all the same holds: an oversized stride never reaches
Copy, and when GetSize succeeds the result is the conversion error. -/
theorem copy_stride_u32_guard (d : ForeignDecoder) (rect : Rect) (stride : Nat) :
    (2 ^ 32 ≤ stride →
      copy d rect stride = (Except.error TryFromIntError, false)) ∧
    (stride < 2 ^ 32 → (copy d rect stride).2 = true) ∧
    (2 ^ 32 ≤ stride →
      (copy_all d stride).2 = false ∧
      (call d.getSizeStatus = Except.ok () →
        copy_all d stride = (Except.error TryFromIntError, false))) := by
  refine ⟨fun h => ?_, fun h => ?_, fun h => ⟨?_, fun hs => ?_⟩⟩
  · unfold copy
    rw [if_neg (by omega)]
  · unfold copy
    rw [if_pos (by omega)]
  · unfold copy_all get_size
    rcases hc : call d.getSizeStatus with e | u
    · rfl
    · obtain ⟨w, hw⟩ := d.sizeOut
      show (if stride < 2 ^ 32 then
              (call (d.copyStatus (Rect.new 0 0 w hw) stride), true)
            else (Except.error TryFromIntError, false)).2 = false
      rw [if_neg (by omega)]
  · unfold copy_all get_size
    rw [hs]
    obtain ⟨w, hw⟩ := d.sizeOut
    show (if stride < 2 ^ 32 then
            (call (d.copyStatus (Rect.new 0 0 w hw) stride), true)
          else (Except.error TryFromIntError, false)) =
        (Except.error TryFromIntError, false)
    rw [if_neg (by omega)]

/-- A concrete foreign decoder whose queries all succeed, reporting the
3440 by 1440 size of the test image. -/
def sampleDecoder : ForeignDecoder :=
  ⟨0, (3440, 1440), fun _ _ => 0⟩

/-- A concrete foreign decoder whose GetSize fails with the file-I/O
status. -/
def failingDecoder : ForeignDecoder :=
  ⟨WMP_errFileIo, (0, 0), fun _ _ => 0⟩

/-- Witness for the stride guard at stride 2 ^ 32 (conversion fails
before the foreign call) and stride 12 (foreign call reached). -/
theorem copy_stride_u32_guard_witness :
    copy sampleDecoder (Rect.new 0 0 1 1) (2 ^ 32) =
      (Except.error TryFromIntError, false) ∧
    (copy sampleDecoder (Rect.new 0 0 1 1) 12).2 = true ∧
    (copy_all sampleDecoder (2 ^ 32)).2 = false :=
  ⟨(copy_stride_u32_guard sampleDecoder (Rect.new 0 0 1 1) (2 ^ 32)).1 (by norm_num),
   (copy_stride_u32_guard sampleDecoder (Rect.new 0 0 1 1) 12).2.1 (by norm_num),
   ((copy_stride_u32_guard sampleDecoder (Rect.new 0 0 1 1) (2 ^ 32)).2.2 (by norm_num)).1⟩

/-- C10: copy_all is the composition the spec describes: when get_size
succeeds with (w, h), copy_all equals copy on the rectangle with origin
zero and that width and height, same buffer and stride; when get_size
fails, copy_all returns that error and the foreign Copy entry point is
not invoked. -/
theorem copy_all_refines_get_size_then_copy (d : ForeignDecoder) (stride : Nat) :
    (∀ w h : Int, get_size d = Except.ok (w, h) →
      copy_all d stride = copy d (Rect.new 0 0 w h) stride) ∧
    (∀ e : JXRError, get_size d = Except.error e →
      copy_all d stride = (Except.error e, false)) := by
  constructor
  · intro w h hok
    unfold copy_all
    rw [hok]
  · intro e herr
    unfold copy_all
    rw [herr]

/-- Witness for the copy_all refinement: the succeeding decoder reduces
to a full-image copy, and the failing decoder propagates the file-I/O
error without reaching Copy. -/
theorem copy_all_refines_witness :
    copy_all sampleDecoder 4 = copy sampleDecoder (Rect.new 0 0 3440 1440) 4 ∧
    copy_all failingDecoder 4 = (Except.error FileIo, false) :=
  ⟨(copy_all_refines_get_size_then_copy sampleDecoder 4).1 3440 1440 rfl,
   (copy_all_refines_get_size_then_copy failingDecoder 4).2 FileIo rfl⟩

end JpegXR
